import Mathlib

/-!
Verification of the session and authorization engine

Shallow embedding of the session/authorization core of the restaurant
backend: the data model (`models/`), the security functions
(`core/security.py`), the two login variants (`routers/auth.py`,
`routers/login.py`) and the role soft-delete (`routers/roles.py`).

Database tables are embedded as Lean lists of row structures; SQLModel
`select(...).first()` becomes `List.find?`, session mutation becomes
explicit state passing (the returned `DB`), commit/rollback becomes
returning the updated or the original state, and `HTTPException` becomes
an explicit error type carrying the status class and detail string.
-/

deriving instance DecidableEq for Except

namespace RestaurantAuth

/-- Outcome of calling a Python function that may raise: either a value or a
raised exception carrying its class name (any subclass of `Exception`). -/
inductive PyOutcome (α : Type) where
  | ok (a : α)
  | exn (cls : String)
deriving DecidableEq, Repr

/-- The JWT claims dictionary used by this application.  `routers/auth.py`
encodes `username`, `email`, `user_id` and `role_name`; `encode_token` adds
`exp` as a numeric timestamp.  `decode_token` reads only `username` (and the
jose library reads `exp`). -/
structure Claims where
  username : Option String
  email : Option String
  user_id : Option Nat
  role_name : Option String
  exp : Option Int
deriving DecidableEq, Repr

/-- A token string, abstracted to what the jose codec can observe of it:
either it is not a well-formed JWT at all, or it is a JWT with a claims
payload and a flag saying whether its signature verifies under the
`SECRET_KEY` and `ALGORITHM` of the application. -/
inductive JoseToken where
  | malformed
  | signed (sigOk : Bool) (claims : Claims)
deriving DecidableEq, Repr

/-- Result of `jose.jwt.decode`: the claims, or a `JWTError` (which covers
malformed tokens, bad signatures and expired tokens alike). -/
inductive JoseResult where
  | ok (claims : Claims)
  | jwtError
deriving DecidableEq, Repr

/-- Models `jose.jwt.decode(token, SECRET_KEY, algorithms=[ALGORITHM])`:
rejects non-JWT strings and bad signatures, and raises
`ExpiredSignatureError` (a subclass of `JWTError`) when the embedded `exp`
claim is strictly earlier than the current time. -/
def jwtDecode (token : JoseToken) (now : Int) : JoseResult :=
  match token with
  | .malformed => .jwtError
  | .signed sigOk claims =>
    if !sigOk then .jwtError
    else
      match claims.exp with
      | some e => if e < now then .jwtError else .ok claims
      | none => .ok claims

/-- `users` table row (`models/users.py`), restricted to the columns the
authorization engine reads. -/
structure UserRow where
  id : Nat
  username : String
  password : String
  email : String
  id_role : Option Nat
  id_status : Option Nat
  deleted : Bool
deriving DecidableEq, Repr

/-- `status` table row (`models/status.py`). -/
structure StatusRow where
  id : Nat
  name : String
deriving DecidableEq, Repr

/-- `roles` table row (`models/roles.py`). -/
structure RoleRow where
  id : Nat
  name : String
  id_status : Option Nat
  updated_at : Int
  deleted : Bool
  deleted_on : Option Int
deriving DecidableEq, Repr

/-- `views` table row (`models/views.py`). -/
structure ViewRow where
  id : Nat
  name : String
  path : String
  deleted : Bool
deriving DecidableEq, Repr

/-- `role_view_link` table row (`models/link_models.py`). -/
structure RoleViewLinkRow where
  id_role : Nat
  id_view : Nat
  enabled : Bool
deriving DecidableEq, Repr

/-- `tokens` table row (`models/tokens.py`).  Note the user foreign-key
column is named `id_user`; the model defines no `user_id` attribute. -/
structure TokenRow where
  id : Nat
  id_user : Nat
  token : JoseToken
  status_token : Bool
  expiration : Int
  date_token : Int
deriving DecidableEq, Repr

/-- The column names the `Token` SQLModel class actually defines
(`models/tokens.py`).  `user_id` is not among them, which is what makes the
`DBToken.user_id` access in the login routers raise `AttributeError`. -/
def tokenModelColumns : List String :=
  ["id", "id_user", "token", "status_token", "expiration", "date_token"]

/-- The database state visible to the authorization engine. -/
structure DB where
  users : List UserRow
  status : List StatusRow
  roles : List RoleRow
  views : List ViewRow
  roleViewLinks : List RoleViewLinkRow
  tokens : List TokenRow
deriving DecidableEq, Repr

/-- Application configuration: the `ACCESS_TOKEN_EXPIRE_MINUTES` environment
value, and the behaviour of the external `bcrypt.checkpw` call (a value, or
an exception such as the `ValueError` bcrypt raises on a malformed hash). -/
structure Config where
  expireMinutes : Int
  checkpw : String → String → PyOutcome Bool

/-- HTTP error responses raised by the engine, by status class. -/
inductive HError where
  | badRequest (detail : String)
  | unauthorized (detail : String)
  | forbidden (detail : String)
  | notFound (detail : String)
  | internal (detail : String)
deriving DecidableEq, Repr

/-- `verify_password` (`core/security.py` lines 40-47): calls
`bcrypt.checkpw` and turns both `except ValueError` and the catch-all
`except Exception` into `False`; a normal boolean result is passed through.
The return type `PyOutcome Bool` records whether the function itself can
raise. -/
def verify_password (checkpw : String → String → PyOutcome Bool)
    (plain_password hashed_password : String) : PyOutcome Bool :=
  match checkpw plain_password hashed_password with
  | .ok b => .ok b
  | .exn "ValueError" => .ok false
  | .exn _ => .ok false

/-- `encode_token` (`core/security.py` lines 53-60): copies the payload,
sets `exp` to now plus `ACCESS_TOKEN_EXPIRE_MINUTES`, and signs it.
Returns the token together with the expiry timestamp. -/
def encode_token (cfg : Config) (data : Claims) (now : Int) : JoseToken × Int :=
  let expire := now + cfg.expireMinutes * 60
  (JoseToken.signed true { data with exp := some expire }, expire)

/-- Status names treated as disabled accounts in `core/security.py` line 90
and `routers/auth.py` line 52. -/
def disabledStatusNames : List String := ["Inactivo", "Suspendido"]

/-- The `user.status` relationship: the `status` row referenced by
`id_status`, if any. -/
def userStatus (db : DB) (u : UserRow) : Option StatusRow :=
  match u.id_status with
  | none => none
  | some sid => db.status.find? (fun s => decide (s.id = sid))

/-- The condition `user_db.status and user_db.status.name in
["Inactivo", "Suspendido"]` shared by `decode_token` and `login_user`. -/
def statusInDisabledSet (db : DB) (u : UserRow) : Bool :=
  match userStatus db u with
  | some s => disabledStatusNames.contains s.name
  | none => false

/-- `decode_token` (`core/security.py` lines 62-117): decode the JWT
(`JWTError` → 401), require the `username` claim (missing → 400), load the
user by username (missing → 404), reject soft-deleted or disabled users
(403), and require a matching active row in the `tokens` table (none →
401).  On success returns the user row. -/
def decode_token (db : DB) (now : Int) (token : JoseToken) : Except HError UserRow :=
  match jwtDecode token now with
  | .jwtError => .error (.unauthorized "Invalid or expired token.")
  | .ok data =>
    match data.username with
    | none => .error (.badRequest "The token data is incomplete (missing username)")
    | some username =>
      match db.users.find? (fun u => decide (u.username = username)) with
      | none => .error (.notFound "User not found")
      | some user_db =>
        if user_db.deleted || statusInDisabledSet db user_db then
          .error (.forbidden "User is deleted or inactive. Contact system manager.")
        else
          match db.tokens.find? (fun t =>
              decide (t.token = token) && decide (t.id_user = user_db.id)
                && t.status_token) with
          | none =>
            .error (.unauthorized "Token has been invalidated or not found/active in database.")
          | some _ => .ok user_db

/-- The body of `permission_verifier` (`core/security.py` lines 129-163)
given the already-authenticated user: look up a non-deleted `views` row by
path (none → 403 fail-safe), then look up a `role_view_link` row for the
primary role of the user with `enabled = True` (none → 403 denied; found →
allow).  The denial message reads `current_user.role.name`; when the user
has no role row that attribute access raises, which surfaces as an
internal error instead of the 403.

The error raised by the link-not-found branch is split out as
`permission_denied_error`: the f-string reads `current_user.role.name`,
so a user whose `id_role` is null or dangling makes that attribute access
raise instead of producing the 403 detail. -/
def permission_denied_error (db : DB) (view_db : ViewRow) (current_user : UserRow) : HError :=
  match current_user.id_role with
  | none => .internal "AttributeError: NoneType object has no attribute name"
  | some rid =>
    match db.roles.find? (fun r => decide (r.id = rid)) with
    | none => .internal "AttributeError: NoneType object has no attribute name"
    | some role =>
      .forbidden ("Permiso denegado: Su rol (" ++ role.name
        ++ ") no tiene acceso a la vista " ++ view_db.name)

/-- The first `session.exec(...).first()` lookup of `permission_verifier`:
`select(View).where(View.path == view_path, View.deleted == False)`. -/
def findView (db : DB) (view_path : String) : Option ViewRow :=
  db.views.find? (fun v => decide (v.path = view_path) && decide (v.deleted = false))

/-- The second lookup: `select(RoleViewLink).where(RoleViewLink.id_role ==
current_user.id_role, RoleViewLink.id_view == view_db.id,
RoleViewLink.enabled == True)`. -/
def findEnabledLink (db : DB) (current_user : UserRow) (view_db : ViewRow) :
    Option RoleViewLinkRow :=
  db.roleViewLinks.find? (fun l =>
    decide (some l.id_role = current_user.id_role)
      && decide (l.id_view = view_db.id) && l.enabled)

/-- The two lookups of `permission_verifier` composed: non-deleted view by
path (none → fail-safe 403), then enabled link for the role of the user (found
→ allow, none → the denial error). -/
def permission_check_body (db : DB) (view_path : String) (current_user : UserRow) :
    Except HError Bool :=
  match findView db view_path with
  | none => .error (.forbidden ("Recurso no registrado o eliminado: " ++ view_path))
  | some view_db =>
    match findEnabledLink db current_user view_db with
    | some _ => .ok true
    | none => .error (permission_denied_error db view_db current_user)

/-- `check_permission(view_path)` (`core/security.py` lines 124-165): the
dependency first authenticates via `decode_token`, then runs the
permission body on the resolved user. -/
def check_permission (view_path : String) (db : DB) (now : Int) (token : JoseToken) :
    Except HError Bool :=
  match decode_token db now token with
  | .error e => .error e
  | .ok current_user => permission_check_body db view_path current_user

/-- Response body of a successful `login_user` (`routers/auth.py` lines
109-113). -/
structure LoginResponse where
  access_token : JoseToken
  token_type : String
  role_name : String
deriving DecidableEq, Repr

/-- The detail of the `INVALID_CREDENTIALS` 401 in `routers/auth.py`. -/
def invalidCredentialsDetail : String := "Credenciales invalidas (usuario/contrasena)"

/-- The 500 detail produced by the catch-all handler of `routers/auth.py` when
the token step raises `AttributeError` (the interpolated `str(e)` text is
the `AttributeError` message about `Token.user_id`). -/
def loginUnexpectedDetail : String :=
  "Error inesperado durante el login: type object Token has no attribute user_id"

/-- The `select(User, Role.name).join(Role, User.id_role == Role.id)
.where(User.username == ...)` query of `routers/auth.py` lines 27-34: the
first user with a matching username that also has a matching `roles` row
(inner join), paired with the name of that role. -/
def findUserWithRole (db : DB) (username : String) : Option (UserRow × String) :=
  (db.users.filterMap (fun u =>
    match u.id_role with
    | some rid =>
      match db.roles.find? (fun r => decide (r.id = rid)) with
      | some r => some (u, r.name)
      | none => none
    | none => none)).find? (fun p => decide (p.1.username = username))

/-- `login_user` (`routers/auth.py` lines 24-113).  Look up the user joined
with their role (missing → 401), check the password (falsy stored hash or
mismatch → 401), check eligibility (soft-deleted → 403, disabled status →
403), then run the token step.  The token step begins by building the
query `select(DBToken).where(DBToken.user_id == user_db.id, ...)`
(line 60); the `Token` model defines the column as `id_user` and has no
`user_id` attribute (`tokenModelColumns`), so Python raises
`AttributeError` there, before any row is read or written; the catch-all
`except Exception` handler rolls the session back and raises a 500.  The
invalidate-then-issue code below that line is therefore unreachable, and
the only commit of the function (line 86) is never executed, so the
returned state is the input state on every path that does not return a
response. -/
def login_user (cfg : Config) (db : DB) (_now : Int) (username password : String) :
    Except HError LoginResponse × DB :=
  match findUserWithRole db username with
  | none => (.error (.unauthorized invalidCredentialsDetail), db)
  | some (user_db, _role_name) =>
    if user_db.password = "" then (.error (.unauthorized invalidCredentialsDetail), db)
    else
      match verify_password cfg.checkpw password user_db.password with
      | .exn _ =>
        (.error (.internal "Error inesperado durante el login"), db)
      | .ok pwOk =>
        if !pwOk then (.error (.unauthorized invalidCredentialsDetail), db)
        else if user_db.deleted then
          (.error (.forbidden "User deleted. Please, contact your system manager"), db)
        else if statusInDisabledSet db user_db then
          (.error (.forbidden "User is currently disabled. Contact your system manager."), db)
        else
          -- Token step: `DBToken.user_id` is not a column of the Token model.
          if tokenModelColumns.contains "user_id" then
            (.error (.internal loginUnexpectedDetail), db)
          else
            (.error (.internal loginUnexpectedDetail), db)

/-- `login` (`routers/login.py` lines 15-61), the unmounted older variant.
User lookup without join (missing → 404), password check (mismatch → 400),
then the same token step: `select(DBToken).where(DBToken.user_id == ...)`
(line 31) raises `AttributeError` before the invalidation commit at line
36 runs, and the bare `except Exception` turns it into a 500.  No session
change was made before the failure, so the state is returned unchanged. -/
def login (cfg : Config) (db : DB) (_now : Int) (username password : String) :
    Except HError LoginResponse × DB :=
  match db.users.find? (fun u => decide (u.username = username)) with
  | none => (.error (.notFound "User not found"), db)
  | some user_db =>
    match verify_password cfg.checkpw password user_db.password with
    | .exn _ => (.error (.internal "An error occurred during login"), db)
    | .ok pwOk =>
      if !pwOk then (.error (.badRequest "Invalid credentials"), db)
      else
        if tokenModelColumns.contains "user_id" then
          (.error (.internal "An error occurred during login: AttributeError"), db)
        else
          (.error (.internal "An error occurred during login: AttributeError"), db)

/-- `soft_delete_role` (`routers/roles.py` lines 154-174): fetch the role
by primary key (missing → 404), return unchanged if already deleted,
otherwise set `deleted`, `deleted_on` and `updated_at` on that row and
commit.  No other table is touched. -/
def soft_delete_role (db : DB) (role_id : Nat) (now : Int) : Except HError Unit × DB :=
  match db.roles.find? (fun r => decide (r.id = role_id)) with
  | none => (.error (.notFound "Rol no encontrado."), db)
  | some role_db =>
    if role_db.deleted then (.ok (), db)
    else
      (.ok (), { db with roles := db.roles.map (fun r =>
        if decide (r.id = role_id) then
          { r with deleted := true, deleted_on := some now, updated_at := now }
        else r) })

/-- Number of `tokens` rows for the given user with `status_token = true`. -/
def countActiveTokens (db : DB) (uid : Nat) : Nat :=
  (db.tokens.filter (fun t => decide (t.id_user = uid) && t.status_token)).length

/-! ## Concrete fixtures used by witnesses and counterexamples -/

def status_active : StatusRow := { id := 1, name := "Activo" }

def status_inactive : StatusRow := { id := 2, name := "Inactivo" }

def role_admin : RoleRow :=
  { id := 1, name := "Administrador", id_status := some 1,
    updated_at := 0, deleted := false, deleted_on := none }

def user_alice : UserRow :=
  { id := 1, username := "alice", password := "hash1",
    email := "alice@example.com", id_role := some 1, id_status := some 1,
    deleted := false }

def user_bob_deleted : UserRow :=
  { id := 2, username := "bob", password := "hash2",
    email := "bob@example.com", id_role := some 1, id_status := some 1,
    deleted := true }

def view_orders : ViewRow :=
  { id := 1, name := "Ordenes", path := "/api/orders", deleted := false }

def cfg0 : Config :=
  { expireMinutes := 30,
    checkpw := fun p h => .ok (p == "pw1" && h == "hash1") }

def claims_alice : Claims :=
  { username := some "alice", email := some "alice@example.com",
    user_id := some 1, role_name := some "Administrador", exp := some 10000 }

def tok_alice : JoseToken := .signed true claims_alice

def claims_bob : Claims :=
  { username := some "bob", email := some "bob@example.com",
    user_id := some 2, role_name := some "Administrador", exp := some 10000 }

def tok_bob : JoseToken := .signed true claims_bob

/-- Base database: alice (active, role Administrador), bob (soft-deleted),
one registered view, one enabled permission link, no tokens yet. -/
def db0 : DB :=
  { users := [user_alice, user_bob_deleted],
    status := [status_active, status_inactive],
    roles := [role_admin],
    views := [view_orders],
    roleViewLinks := [{ id_role := 1, id_view := 1, enabled := true }],
    tokens := [] }

/-- An alice claims payload that expired at time 2. -/
def claims_alice_expired : Claims := { claims_alice with exp := some 2 }

/-- `db0` plus an active token row holding the expired alice token. -/
def db_expired : DB :=
  { db0 with tokens :=
      [{ id := 1, id_user := 1, token := JoseToken.signed true claims_alice_expired,
         status_token := true, expiration := 2, date_token := 0 }] }

/-- `db0` with the alice token row present but invalidated
(`status_token = false`), as after a supersession. -/
def db_revoked : DB :=
  { db0 with tokens :=
      [{ id := 1, id_user := 1, token := tok_alice, status_token := false,
         expiration := 10000, date_token := 0 }] }

/-- `db0` with an active token row for alice and an active row for bob. -/
def db_tok : DB :=
  { db0 with tokens :=
      [{ id := 1, id_user := 1, token := tok_alice, status_token := true,
         expiration := 10000, date_token := 0 },
       { id := 2, id_user := 2, token := tok_bob, status_token := true,
         expiration := 10000, date_token := 0 }] }

/-! ## Claim theorems -/

/-- C7: Credential verifier totality — for every plaintext password and
every stored hash, whatever the underlying `bcrypt.checkpw` call does
(returns a boolean or raises any exception class, as it does on malformed
hashes), `verify_password` returns a boolean and never raises; every
library error is mapped to `false`. -/
theorem verify_password_total_and_error_to_false :
    (∀ (checkpw : String → String → PyOutcome Bool) (plain hashed : String),
      ∃ b : Bool, verify_password checkpw plain hashed = PyOutcome.ok b)
    ∧ (∀ (plain hashed cls : String),
      verify_password (fun _ _ => PyOutcome.exn cls) plain hashed = PyOutcome.ok false) := by
  constructor
  · intro checkpw plain hashed
    unfold verify_password
    cases h : checkpw plain hashed with
    | ok b => exact ⟨b, rfl⟩
    | exn cls => exact ⟨false, by split <;> simp_all⟩
  · intro plain hashed cls
    unfold verify_password
    split <;> simp_all

/-- C4: Expiry is mandatory — every token whose embedded `exp` timestamp
is earlier than the current time is rejected by `decode_token` with a 401,
even when its signature is valid; this holds for every database state, in
particular when a matching row with `status_token = true` exists. -/
theorem decode_token_rejects_expired (db : DB) (now e : Int) (claims : Claims)
    (hexp : claims.exp = some e) (hlt : e < now) :
    decode_token db now (JoseToken.signed true claims) =
      .error (.unauthorized "Invalid or expired token.") := by
  simp [decode_token, jwtDecode, hexp, hlt]

/-- Witness for C4: an expired token for alice is rejected even though
`db_expired` holds an active (`status_token = true`) row for it. -/
theorem decode_token_rejects_expired_w :
    countActiveTokens db_expired 1 = 1 ∧
    decode_token db_expired 10 (JoseToken.signed true claims_alice_expired) =
      .error (.unauthorized "Invalid or expired token.") :=
  ⟨by decide,
   decode_token_rejects_expired db_expired 10 2 claims_alice_expired rfl (by decide)⟩

/-- C6: Soft-deleted or disabled user lock-out — whenever a presented
token decodes successfully (well-signed, unexpired) and its `username`
claim resolves to a user row that is soft-deleted or whose status name is
in the disabled set, `decode_token` fails with the 403 Forbidden error,
regardless of the state of the `tokens` table (in particular when an
active matching row exists). -/
theorem decode_token_locks_out_deleted_or_disabled (db : DB) (now : Int)
    (token : JoseToken) (claims : Claims) (uname : String) (u : UserRow)
    (hdec : jwtDecode token now = .ok claims)
    (huser : claims.username = some uname)
    (hfind : db.users.find? (fun x => decide (x.username = uname)) = some u)
    (hbad : u.deleted = true ∨ statusInDisabledSet db u = true) :
    decode_token db now token =
      .error (.forbidden "User is deleted or inactive. Contact system manager.") := by
  rcases hbad with h | h <;> simp [decode_token, hdec, huser, hfind, h]

/-- Witness for C6: bob is soft-deleted; his well-signed, unexpired token,
whose row in `db_tok` is still `status_token = true`, is rejected with the
403. -/
theorem decode_token_locks_out_deleted_or_disabled_w :
    user_bob_deleted.deleted = true ∧
    countActiveTokens db_tok 2 = 1 ∧
    decode_token db_tok 0 tok_bob =
      .error (.forbidden "User is deleted or inactive. Contact system manager.") :=
  ⟨by decide, by decide,
   decode_token_locks_out_deleted_or_disabled db_tok 0 tok_bob claims_bob "bob"
     user_bob_deleted (by decide) rfl (by decide) (Or.inl (by decide))⟩

/-- C2: Permission-resolution taxonomy — for every database state, user
(hence role id) and resource path: when no non-deleted `views` row matches
the path the check denies with the fail-safe 403; when a view is found,
the check allows exactly when a `role_view_link` row for the
primary role of the user and that view exists with `enabled = true` (so a missing link
row and an `enabled = false` row both deny); and every outcome is either
that allow or an error — there is no allow-by-default path. -/
theorem check_permission_taxonomy (db : DB) (view_path : String) (u : UserRow) :
    (findView db view_path = none →
      permission_check_body db view_path u =
        .error (.forbidden ("Recurso no registrado o eliminado: " ++ view_path)))
    ∧ (∀ view_db, findView db view_path = some view_db →
        (permission_check_body db view_path u = .ok true ↔
          ∃ l ∈ db.roleViewLinks,
            some l.id_role = u.id_role ∧ l.id_view = view_db.id ∧ l.enabled = true))
    ∧ (permission_check_body db view_path u = .ok true ∨
        ∃ e, permission_check_body db view_path u = .error e) := by
  refine ⟨?_, ?_, ?_⟩
  · intro h
    unfold permission_check_body
    rw [h]
  · intro view_db hv
    unfold permission_check_body
    rw [hv]
    show (match findEnabledLink db u view_db with
      | some _ => Except.ok true
      | none => Except.error (permission_denied_error db view_db u)) = Except.ok true ↔ _
    cases hl : findEnabledLink db u view_db with
    | none =>
      unfold findEnabledLink at hl
      constructor
      · intro hcontr
        simp at hcontr
      · rintro ⟨l, hmem, h1, h2, h3⟩
        have hnot := List.find?_eq_none.mp hl l hmem
        simp [h1, h2, h3] at hnot
    | some l =>
      unfold findEnabledLink at hl
      have hp := List.find?_some hl
      have hm := List.mem_of_find?_eq_some hl
      simp only [Bool.and_eq_true, decide_eq_true_eq] at hp
      exact ⟨fun _ => ⟨l, hm, hp.1.1, hp.1.2, hp.2⟩, fun _ => rfl⟩
  · unfold permission_check_body
    split
    · exact Or.inr ⟨_, rfl⟩
    · split
      · exact Or.inl rfl
      · exact Or.inr ⟨_, rfl⟩

/-- Witness for C2: the role of alice has an enabled link to `/api/orders` in
`db0`, so the check allows. -/
theorem check_permission_taxonomy_w :
    permission_check_body db0 "/api/orders" user_alice = Except.ok true :=
  ((check_permission_taxonomy db0 "/api/orders" user_alice).2.1 view_orders (by decide)).mpr
    ⟨{ id_role := 1, id_view := 1, enabled := true }, by decide, by decide, by decide, rfl⟩

/-- C10: A soft-deleted role still grants access — `soft_delete_role`
leaves every table other than `roles` unchanged (in particular every
`role_view_link` row), each role row keeps its id, name and status
reference (only deleted/deleted_on/updated_at can change), and the
permission check allows after the soft delete exactly when it allowed
before: it never reads `Role.deleted`, so a user whose primary role has an
enabled link to the requested view is still authorized. -/
theorem soft_deleted_role_still_grants_access (db : DB) (role_id : Nat) (now : Int) :
    ((soft_delete_role db role_id now).2.users = db.users
      ∧ (soft_delete_role db role_id now).2.status = db.status
      ∧ (soft_delete_role db role_id now).2.views = db.views
      ∧ (soft_delete_role db role_id now).2.roleViewLinks = db.roleViewLinks
      ∧ (soft_delete_role db role_id now).2.tokens = db.tokens)
    ∧ (∀ r ∈ (soft_delete_role db role_id now).2.roles, ∃ r0 ∈ db.roles,
        r.id = r0.id ∧ r.name = r0.name ∧ r.id_status = r0.id_status)
    ∧ (∀ view_path u,
        permission_check_body (soft_delete_role db role_id now).2 view_path u = .ok true
          ↔ permission_check_body db view_path u = .ok true) := by
  have hframe : (soft_delete_role db role_id now).2.users = db.users
      ∧ (soft_delete_role db role_id now).2.status = db.status
      ∧ (soft_delete_role db role_id now).2.views = db.views
      ∧ (soft_delete_role db role_id now).2.roleViewLinks = db.roleViewLinks
      ∧ (soft_delete_role db role_id now).2.tokens = db.tokens := by
    unfold soft_delete_role
    split
    · exact ⟨rfl, rfl, rfl, rfl, rfl⟩
    · split
      · exact ⟨rfl, rfl, rfl, rfl, rfl⟩
      · exact ⟨rfl, rfl, rfl, rfl, rfl⟩
  refine ⟨hframe, ?_, ?_⟩
  · intro r hr
    unfold soft_delete_role at hr
    split at hr
    · exact ⟨r, hr, rfl, rfl, rfl⟩
    · split at hr
      · exact ⟨r, hr, rfl, rfl, rfl⟩
      · rcases List.mem_map.mp hr with ⟨r0, hr0, rfl⟩
        exact ⟨r0, hr0, by split <;> exact ⟨rfl, rfl, rfl⟩⟩
  · intro view_path u
    have hv : findView (soft_delete_role db role_id now).2 view_path = findView db view_path := by
      unfold findView
      rw [hframe.2.2.1]
    unfold permission_check_body
    rw [hv]
    cases hfv : findView db view_path with
    | none => simp
    | some view_db =>
      have hl : findEnabledLink (soft_delete_role db role_id now).2 u view_db
          = findEnabledLink db u view_db := by
        unfold findEnabledLink
        rw [hframe.2.2.2.1]
      show (match findEnabledLink (soft_delete_role db role_id now).2 u view_db with
          | some _ => Except.ok true
          | none => Except.error (permission_denied_error (soft_delete_role db role_id now).2 view_db u))
          = Except.ok true
        ↔ (match findEnabledLink db u view_db with
          | some _ => Except.ok true
          | none => Except.error (permission_denied_error db view_db u)) = Except.ok true
      rw [hl]
      cases findEnabledLink db u view_db <;> simp

/-- Witness for C10: after soft-deleting role 1 (the role of alice) in `db0`,
alice is still authorized for `/api/orders`. -/
theorem soft_deleted_role_still_grants_access_w :
    permission_check_body (soft_delete_role db0 1 5).2 "/api/orders" user_alice = .ok true :=
  ((soft_deleted_role_still_grants_access db0 1 5).2.2 "/api/orders" user_alice).mpr (by decide)

/-- C8 counterexample: token-validation failures are not rejected
identically at the caller-visible boundary.  A well-signed, unexpired
token whose payload lacks the `username` claim (a malformed payload) is
rejected with a 400 Bad Request, while an expired token gets a 401; and
the revoked-token 401 carries a different detail string than the
bad-signature/expired 401, so the failure causes are distinguishable. -/
theorem decode_token_failures_distinguishable :
    decode_token db_tok 0 (JoseToken.signed true
        { username := none, email := none, user_id := none,
          role_name := none, exp := some 100 })
      = .error (.badRequest "The token data is incomplete (missing username)")
    ∧ decode_token db_tok 20000 tok_alice
      = .error (.unauthorized "Invalid or expired token.")
    ∧ decode_token db_revoked 0 tok_alice
      = .error (.unauthorized "Token has been invalidated or not found/active in database.")
    ∧ HError.badRequest "The token data is incomplete (missing username)"
        ≠ HError.unauthorized "Invalid or expired token."
    ∧ "Invalid or expired token."
        ≠ "Token has been invalidated or not found/active in database." := by
  decide

/-- C8 amended: malformed token strings, bad signatures and expired tokens
are all rejected with one identical 401 error; a decodable token that is
not the active session row is rejected with a 401 carrying a different
detail string; and a decodable token whose payload lacks the `username`
claim is rejected with a 400.  All failures are rejections, but the
boundary distinguishes revoked tokens from codec failures by detail
string, and missing-claim payloads by status class. -/
theorem decode_token_failure_signals (db : DB) (now : Int) :
    (decode_token db now .malformed = .error (.unauthorized "Invalid or expired token."))
    ∧ (∀ claims, decode_token db now (JoseToken.signed false claims)
        = .error (.unauthorized "Invalid or expired token."))
    ∧ (∀ claims e, claims.exp = some e → e < now →
        decode_token db now (JoseToken.signed true claims)
          = .error (.unauthorized "Invalid or expired token."))
    ∧ (∀ token claims uname u,
        jwtDecode token now = .ok claims →
        claims.username = some uname →
        db.users.find? (fun x => decide (x.username = uname)) = some u →
        (u.deleted || statusInDisabledSet db u) = false →
        db.tokens.find? (fun t => decide (t.token = token)
          && decide (t.id_user = u.id) && t.status_token) = none →
        decode_token db now token
          = .error (.unauthorized "Token has been invalidated or not found/active in database."))
    ∧ (∀ token claims,
        jwtDecode token now = .ok claims →
        claims.username = none →
        decode_token db now token
          = .error (.badRequest "The token data is incomplete (missing username)")) := by
  refine ⟨?_, ?_, ?_, ?_, ?_⟩
  · simp [decode_token, jwtDecode]
  · intro claims
    simp [decode_token, jwtDecode]
  · intro claims e hexp hlt
    simp [decode_token, jwtDecode, hexp, hlt]
  · intro token claims uname u hdec huser hfind helig htok
    simp [decode_token, hdec, huser, hfind, helig, htok]
  · intro token claims hdec huser
    simp [decode_token, hdec, huser]

/-- Witness for the amended C8 theorem: the revoked alice token in
`db_revoked` is rejected with the invalidated-token 401. -/
theorem decode_token_failure_signals_w :
    decode_token db_revoked 0 tok_alice
      = .error (.unauthorized "Token has been invalidated or not found/active in database.") :=
  (decode_token_failure_signals db_revoked 0).2.2.2.1 tok_alice claims_alice "alice"
    user_alice (by decide) rfl (by decide) (by decide) (by decide)

/-- Every branch of `login_user` that raises an error rolls back, so the
returned store equals the input store; since the only commit sits after
the whole invalidate-then-issue sequence and is never reached, the store
is in fact returned unchanged on every path. -/
lemma login_user_state_eq (cfg : Config) (db : DB) (now : Int) (uname pwd : String) :
    (login_user cfg db now uname pwd).2 = db := by
  unfold login_user
  repeat' split
  all_goals rfl

/-- Same for the older `login` variant: its token step fails before its
first commit, so the store is returned unchanged on every path. -/
lemma login_state_eq (cfg : Config) (db : DB) (now : Int) (uname pwd : String) :
    (login cfg db now uname pwd).2 = db := by
  unfold login
  repeat' split
  all_goals rfl

/-- C3: Login atomicity (fail-closed) — whenever either login operation
fails with an error, the whole transaction is rolled back and the store is
returned exactly as it was: no token row is invalidated and none is
created. -/
theorem login_error_leaves_store_unchanged :
    (∀ cfg db now uname pwd e,
      (login_user cfg db now uname pwd).1 = .error e →
      (login_user cfg db now uname pwd).2 = db)
    ∧ (∀ cfg db now uname pwd e,
      (login cfg db now uname pwd).1 = .error e →
      (login cfg db now uname pwd).2 = db) :=
  ⟨fun cfg db now uname pwd _ _ => login_user_state_eq cfg db now uname pwd,
   fun cfg db now uname pwd _ _ => login_state_eq cfg db now uname pwd⟩

/-- Witness for C3: a wrong-password login against `db_tok` fails and
leaves the token table (the active session of alice included) untouched. -/
theorem login_error_leaves_store_unchanged_w :
    (login_user cfg0 db_tok 0 "alice" "wrong").2 = db_tok :=
  login_error_leaves_store_unchanged.1 cfg0 db_tok 0 "alice" "wrong"
    (.unauthorized invalidCredentialsDetail) (by decide)

/-- C9: Login attribute mismatch — both login variants build their token
queries through `DBToken.user_id` while the `Token` model only defines
`id_user`, so for every user who passes the credential (and, in
`login_user`, the eligibility) gates, the token-invalidation-and-issuance
step terminates in the generic internal-error branch with the store
unchanged: no active token row is ever inserted. -/
theorem login_token_step_internal_error :
    (∀ cfg db now uname pwd u rn,
      findUserWithRole db uname = some (u, rn) →
      u.password ≠ "" →
      verify_password cfg.checkpw pwd u.password = .ok true →
      u.deleted = false →
      statusInDisabledSet db u = false →
      login_user cfg db now uname pwd = (.error (.internal loginUnexpectedDetail), db))
    ∧ (∀ cfg db now uname pwd u,
      db.users.find? (fun x => decide (x.username = uname)) = some u →
      verify_password cfg.checkpw pwd u.password = .ok true →
      login cfg db now uname pwd =
        (.error (.internal "An error occurred during login: AttributeError"), db)) := by
  constructor
  · intro cfg db now uname pwd u rn hfind hpw hver hdel hstat
    simp [login_user, hfind, hpw, hver, hdel, hstat]
  · intro cfg db now uname pwd u hfind hver
    simp [login, hfind, hver]

/-- Witness for C9: alice has correct credentials and an eligible account
in `db0`, yet both login variants end in the 500 branch. -/
theorem login_token_step_internal_error_w :
    login_user cfg0 db0 0 "alice" "pw1" = (.error (.internal loginUnexpectedDetail), db0)
    ∧ login cfg0 db0 0 "alice" "pw1" =
        (.error (.internal "An error occurred during login: AttributeError"), db0) :=
  ⟨login_token_step_internal_error.1 cfg0 db0 0 "alice" "pw1" user_alice "Administrador"
     (by decide) (by decide) (by decide) rfl (by decide),
   login_token_step_internal_error.2 cfg0 db0 0 "alice" "pw1" user_alice
     (by decide) (by decide)⟩

/-- C1 (evaluated against the code): with correct credentials and an
eligible account, calling `login_user` twice in a row never succeeds —
both calls end in the internal-error branch, the store never changes, and
afterwards zero (not one) token rows for the user have
`status_token = true`.  The single-active-session state the claim
describes is never established by the code. -/
theorem login_twice_yields_no_active_token_row :
    (login_user cfg0 db0 0 "alice" "pw1").1 = .error (.internal loginUnexpectedDetail)
    ∧ (login_user cfg0 db0 0 "alice" "pw1").2 = db0
    ∧ (login_user cfg0 ((login_user cfg0 db0 0 "alice" "pw1").2) 60 "alice" "pw1").1
        = .error (.internal loginUnexpectedDetail)
    ∧ countActiveTokens
        ((login_user cfg0 ((login_user cfg0 db0 0 "alice" "pw1").2) 60 "alice" "pw1").2) 1
        = 0 := by
  decide

/-- C5 (evaluated against the code): a well-signed, unexpired, active
token for alice validates; a newer login attempt for alice then fails in
the internal-error branch and leaves the store unchanged, so afterwards
the very same old token still validates — supersession never happens
because no login ever completes. -/
theorem stale_token_validates_after_new_login_attempt :
    decode_token db_tok 0 tok_alice = .ok user_alice
    ∧ (login_user cfg0 db_tok 5 "alice" "pw1").1 = .error (.internal loginUnexpectedDetail)
    ∧ (login_user cfg0 db_tok 5 "alice" "pw1").2 = db_tok
    ∧ decode_token ((login_user cfg0 db_tok 5 "alice" "pw1").2) 6 tok_alice
        = .ok user_alice := by
  decide

end RestaurantAuth
